import Mathlib

set_option autoImplicit false
set_option maxRecDepth 40000

/-!
Shallow embedding of the mev-backend table-validation and resource-lifecycle
core, covering:

- resource_types/table_types.py: the TableResource / Matrix / IntegerMatrix /
  ElementTable / AnnotationTable validator chain and the preview contract;
- api/utilities/resource_utilities.py: check_for_shared_resource_file,
  copy_resource_to_workspace and handle_valid_resource;
- api/utilities/basic_utils.py: move_resource with its collision-avoidance
  renaming loop.

Tables are modelled at the level the validators inspect them: pandas dtypes
are carried as the strings produced by str(column.dtype), and cell values are
carried in their textual form str(x), with missing values (NaN) as none.
Python functions that can raise are modelled with the PyResult type below.
-/

/-- Result of a Python call that either returns a value or raises an
exception carrying a message. -/
inductive PyResult (α : Type) : Type
  | ret (value : α)
  | raised (msg : String)
deriving DecidableEq

/-- A parsed table column: the pandas column label, the dtype rendered as a
string (what str(col.dtype) yields, e.g. "int64", "float64", "object"), and
the cell values in textual form, none standing for a missing value (NaN). -/
structure PColumn where
  name : String
  dtype : String
  values : List (Option String)
deriving DecidableEq

/-- A parsed pandas table as produced by read_resource: the index (row
labels, from the first file column via index_col=0) and the remaining data
columns.  The pandas shape is (rowNames.length, columns.length). -/
structure PTable where
  rowNames : List String
  columns : List PColumn
deriving DecidableEq

/-- Outcome of TableResource.read_resource for a resource path: either a
parsed table, or one of the two exceptions the method can raise
(ParserNotFoundException for an unrecognized file extension,
ParseException when the chosen pandas reader fails). -/
inductive ParseOutcome : Type
  | ok (t : PTable)
  | parserNotFound
  | parseError
deriving DecidableEq

/-- re.match of the pattern backslash-d-plus against a string: an unanchored
prefix match that succeeds exactly when the string begins with a decimal
digit. -/
def reMatchDigits (s : String) : Bool :=
  match s.data with
  | [] => false
  | c :: _ => c.isDigit

/-- Character-level test that the first list leads the second one. -/
def charsLeadWith : List Char → List Char → Bool
  | [], _ => true
  | _ :: _, [] => false
  | a :: as, b :: bs => a == b && charsLeadWith as bs

/-- String s starts with the string pre (character-level startswith). -/
def strLeadsWith (pre s : String) : Bool := charsLeadWith pre.data s.data

/-- re.match of the Matrix.TARGET_PATTERN regex (float-or-int followed by up
to two digits) against a dtype string: since the digit part may be empty and
re.match does not anchor the end, this succeeds exactly when the string
starts with "float" or with "int". -/
def dtypeMatchesNumeric (s : String) : Bool :=
  strLeadsWith "float" s || strLeadsWith "int" s

/-- re.match of the IntegerMatrix.TARGET_PATTERN regex (int followed by up to
two digits) against a dtype string: succeeds exactly when the string starts
with "int". -/
def dtypeMatchesInt (s : String) : Bool :=
  strLeadsWith "int" s

/-- Helper for the digits-dot-zero regex: after an initial digit, accept more
digits and then the two characters dot and zero. -/
def intDotZeroTail : List Char → Bool
  | '.' :: '0' :: _ => true
  | c :: rest => c.isDigit && intDotZeroTail rest
  | [] => false

/-- re.match of the pattern digits-dot-zero (backslash-d-plus, dot, zero)
against the textual form of a value: an unanchored prefix match that
succeeds exactly when the string starts with one or more digits followed by
".0" (so "2.0" and "12.0" match, and so does "2.05", since the end is not
anchored; "1.5" and ".0" do not). -/
def reMatchIntDotZero (s : String) : Bool :=
  match s.data with
  | c :: rest => c.isDigit && intDotZeroTail rest
  | [] => false

/-- Error message PARSE_ERROR from table_types.py. -/
def PARSE_ERROR : String :=
  "There was an unexpected problem when parsing and validating the file."

/-- Error message PARSER_NOT_FOUND_ERROR from table_types.py. -/
def PARSER_NOT_FOUND_ERROR : String :=
  "Could not find an appropriate parser for the resource.  Please check the instructions."

/-- Error message template NON_NUMERIC_ERROR from table_types.py, with the
cols placeholder applied. -/
def NON_NUMERIC_ERROR (cols : String) : String :=
  "The following columns contained non-numeric entries: " ++ cols

/-- Error message template NON_INTEGER_ERROR from table_types.py, with the
cols placeholder applied. -/
def NON_INTEGER_ERROR (cols : String) : String :=
  "The following columns contained non-integer entries: " ++ cols

/-- Error message TRIVIAL_TABLE_ERROR from table_types.py. -/
def TRIVIAL_TABLE_ERROR : String :=
  "The file contained only a single column which provided an index.  No data was provided in additional columns."

/-- Error message NUMBERED_COLUMN_NAMES_ERROR from table_types.py. -/
def NUMBERED_COLUMN_NAMES_ERROR : String :=
  "All the column names were numbers.  Often this is due to a missing column header.  In that case, there will be a missing row in your table. If you named your columns with numbers, please change them to something else to avoid incorrect parsing of the file."

/-- Error message NUMBERED_ROW_NAMES_ERROR from table_types.py. -/
def NUMBERED_ROW_NAMES_ERROR : String :=
  "All the row names were numbers.  We use the first column to uniquely identify the rows for filtering purposes. If you named your rows with numbers, please change them to something else (e.g. add \"x\" to the beginning to avoid incorrect parsing of the file."

/-- Error message NONUNIQUE_ROW_NAMES_ERROR from table_types.py. -/
def NONUNIQUE_ROW_NAMES_ERROR : String :=
  "Your row names were not unique, which could cause unexpected behavior."

/-- Warning message MISSING_HEADER_WARNING from table_types.py. -/
def MISSING_HEADER_WARNING : String :=
  "One of your column names matched the values in the corresponding problem.  This is not an error, but may indicate that a proper header line was missing.  Please check to ensure the file was parsed correctly."

/-- Error message EMPTY_TABLE_ERROR from table_types.py. -/
def EMPTY_TABLE_ERROR : String :=
  "The parsed table was empty. If you are trying to import an Excel spreadsheet, please ensure that the data is contained in the first sheet of the workbook."

/-- col_str_formatter from table_types.py: renders a (column name, column
number) pair as "name (column N)". -/
def col_str_formatter (x : String × Nat) : String :=
  x.1 ++ " (column " ++ toString x.2 ++ ")"

/-- The comma-join of formatted problem columns used when building the
NON_NUMERIC_ERROR and NON_INTEGER_ERROR messages. -/
def joinProblemColumns (cols : List (String × Nat)) : String :=
  String.intercalate ", " (cols.map col_str_formatter)

/-- Membership test used for the pandas index.has_duplicates check. -/
def hasDuplicates : List String → Bool
  | [] => false
  | x :: xs => xs.contains x || hasDuplicates xs

/-- TableResource.index_all_numbers: true when every index label prefix
matches the digits regex (all of an empty list is true, as in Python). -/
def TableResource.index_all_numbers (names : List String) : Bool :=
  names.all reMatchDigits

/-- TableResource.validate_type from table_types.py: attempts the parse, then
applies the structural checks in source order, returning the Python pair
(is_valid, error message).  The two read_resource exceptions are caught and
converted to failures. -/
def TableResource.validate_type (p : ParseOutcome) : Bool × Option String :=
  match p with
  | ParseOutcome.parserNotFound => (false, some PARSER_NOT_FOUND_ERROR)
  | ParseOutcome.parseError => (false, some PARSE_ERROR)
  | ParseOutcome.ok t =>
    if t.rowNames.length = 0 ∧ t.columns.length = 0 then
      (false, some EMPTY_TABLE_ERROR)
    else if t.columns.length = 0 then
      (false, some TRIVIAL_TABLE_ERROR)
    else if TableResource.index_all_numbers (t.columns.map PColumn.name) then
      (false, some NUMBERED_COLUMN_NAMES_ERROR)
    else if TableResource.index_all_numbers t.rowNames then
      (false, some NUMBERED_ROW_NAMES_ERROR)
    else if hasDuplicates t.rowNames then
      (false, some NONUNIQUE_ROW_NAMES_ERROR)
    else
      (true, none)

/-- Outcome of the body of TableResource.get_preview up to the point where a
result dict is built: a successful read, one of the two read_resource
exceptions, or any other unanticipated exception (the final generic except
branch of the source). -/
inductive ReadOutcome : Type
  | ok (t : PTable)
  | parserNotFound
  | parseError
  | otherFailure
deriving DecidableEq

/-- The dict returned by TableResource.get_preview: either the three-key
preview of the table head, or a dict holding only an error message. -/
inductive PreviewResult : Type
  | preview (columns : List String) (rows : List String)
      (values : List (List (Option String)))
  | error (msg : String)
deriving DecidableEq

/-- The row-major cell grid of table.head() (the first five rows), as
produced by table_head.values.tolist(). -/
def PTable.headValues (t : PTable) : List (List (Option String)) :=
  (List.range (min 5 t.rowNames.length)).map
    (fun i => t.columns.map (fun c => c.values.getD i none))

/-- TableResource.get_preview from table_types.py: on a successful read,
returns the dict with keys columns, rows, values built from table.head();
each of the three except branches returns a dict with only an error
message. -/
def TableResource.get_preview (o : ReadOutcome) : PreviewResult :=
  match o with
  | ReadOutcome.ok t =>
      PreviewResult.preview (t.columns.map PColumn.name) (t.rowNames.take 5)
        (PTable.headValues t)
  | ReadOutcome.parserNotFound =>
      PreviewResult.error "Parser for the resource not found."
  | ReadOutcome.parseError =>
      PreviewResult.error "Parser could not read the resource."
  | ReadOutcome.otherFailure =>
      PreviewResult.error "An unexpected error occurred."

/-- Matrix.check_column_types from table_types.py: enumerate the table
dtypes and collect, for each column whose dtype fails the target pattern,
the pair (column name, one-based column number). -/
def Matrix.check_column_types (t : PTable) (targetMatch : String → Bool) :
    List (String × Nat) :=
  t.columns.enum.filterMap
    (fun ic => if targetMatch ic.2.dtype then none else some (ic.2.name, ic.1 + 1))

/-- Matrix.validate_type from table_types.py: run the parent validator, and
on failure return its (False, message) pair unchanged; on success check every
column dtype against the numeric pattern and report the offenders. -/
def Matrix.validate_type (p : ParseOutcome) : Bool × Option String :=
  let r := TableResource.validate_type p
  if r.1 = false then
    (false, r.2)
  else
    match p with
    | ParseOutcome.ok t =>
      let problem_columns := Matrix.check_column_types t dtypeMatchesNumeric
      if 0 < problem_columns.length then
        (false, some (NON_NUMERIC_ERROR (joinProblemColumns problem_columns)))
      else
        (true, none)
    | _ => (true, none)

/-- The Python loop over enumerate(problem_columns) that pops accepted
entries in place.  Popping at the cursor position shifts the next element
into a slot the iterator has already passed, so after an accepted element
the following element is kept without ever being examined. -/
def popWhileIterating {α : Type} (accept : α → Bool) : List α → List α
  | [] => []
  | [c] => if accept c then [] else [c]
  | c :: d :: rest =>
    if accept c then d :: popWhileIterating accept rest
    else c :: popWhileIterating accept (d :: rest)

/-- The secondary check of IntegerMatrix.validate_type for one problem
column: look the column up by its label (pandas table indexing), drop the
missing values, and test whether the textual form of every remaining value
prefix-matches digits-dot-zero.  The lookup cannot miss, since the label was
taken from the table itself; the fallback arm is never reached. -/
def IntegerMatrix.relaxAccepts (t : PTable) (colname : String) : Bool :=
  match t.columns.find? (fun c => c.name == colname) with
  | some c => (c.values.filterMap id).all reMatchIntDotZero
  | none => true

/-- IntegerMatrix.validate_type from table_types.py: run the Matrix
validator, propagating failure; on success collect the columns failing the
integer dtype pattern, run the in-place popping loop that tolerates
columns whose non-missing values all look like "2.0", and report whatever
remains in problem_columns afterwards. -/
def IntegerMatrix.validate_type (p : ParseOutcome) : Bool × Option String :=
  let r := Matrix.validate_type p
  if r.1 = false then
    (false, r.2)
  else
    match p with
    | ParseOutcome.ok t =>
      let problem_columns := Matrix.check_column_types t dtypeMatchesInt
      if 0 < problem_columns.length then
        let remaining :=
          popWhileIterating (fun c => IntegerMatrix.relaxAccepts t c.1) problem_columns
        if 0 < remaining.length then
          (false, some (NON_INTEGER_ERROR (joinProblemColumns remaining)))
        else
          (true, none)
      else
        (true, none)
    | _ => (true, none)

/-- ElementTable.validate_type from table_types.py: run the parent validator,
propagating failure; on success re-assert the at-least-one-data-column
guard. -/
def ElementTable.validate_type (p : ParseOutcome) : Bool × Option String :=
  let r := TableResource.validate_type p
  if r.1 = false then
    (false, r.2)
  else
    match p with
    | ParseOutcome.ok t =>
      if t.columns.length = 0 then (false, some TRIVIAL_TABLE_ERROR)
      else (true, none)
    | _ => (true, none)

/-- The flagged-column test of AnnotationTable.validate_type for one column:
np.sum of the elementwise comparison of the label against its own column is
positive exactly when some cell of the column equals the label. -/
def annotationColumnFlagged (t : PTable) (colname : String) : Bool :=
  match t.columns.find? (fun c => c.name == colname) with
  | some c => c.values.contains (some colname)
  | none => false

/-- AnnotationTable.validate_type from table_types.py: run the ElementTable
validator, propagating failure; on success look for columns whose label
also appears among their own values, and in that case return valid with the
MISSING_HEADER_WARNING message (a warning, not a failure). -/
def AnnotationTable.validate_type (p : ParseOutcome) : Bool × Option String :=
  let r := ElementTable.validate_type p
  if r.1 = false then
    (false, r.2)
  else
    match p with
    | ParseOutcome.ok t =>
      let flagged := t.columns.filter (fun c => annotationColumnFlagged t c.name)
      if 0 < flagged.length then (true, some MISSING_HEADER_WARNING)
      else (true, none)
    | _ => (true, none)

/-- The slice of a Resource database row that check_for_shared_resource_file
inspects: the primary key and the storage path. -/
structure DbResource where
  pk : Nat
  path : String
deriving DecidableEq, Inhabited

/-- check_for_shared_resource_file from resource_utilities.py, over the list
of all Resource rows.  With a nonempty path it filters the rows by exact
path: zero hits raise, a single hit must re-find the instance itself (else a
database-inconsistency error) and yields False, two or more hits yield True.
With an empty path the function falls through all branches and returns the
Python None, modelled as ret none. -/
def check_for_shared_resource_file (resource_instance : DbResource)
    (db : List DbResource) : PyResult (Option Bool) :=
  if 0 < resource_instance.path.length then
    let all_resources_with_path := db.filter (fun r => r.path == resource_instance.path)
    if all_resources_with_path.length = 0 then
      PyResult.raised "No Resource found"
    else if all_resources_with_path.length = 1 then
      if all_resources_with_path.headI.pk ≠ resource_instance.pk then
        PyResult.raised "Database inconsistency!"
      else
        PyResult.ret (some false)
    else
      PyResult.ret (some true)
  else
    PyResult.ret none

/-- The slice of a Resource record that handle_valid_resource mutates: the
status message, the nullable semantic type tag, and the storage path. -/
structure ResourceRec where
  status : String
  resource_type : Option String
  path : String
deriving DecidableEq

/-- The Resource.READY status constant from the api.models Resource class
(the model class itself is outside the analyzed sources; per the spec the
READY state carries the status string "ready").  The theorems below depend
only on the field being set to this constant, not on its value. -/
def Resource.READY : String := "ready"

/-- handle_valid_resource from resource_utilities.py, with the outcome of
move_resource_to_final_location supplied as moveResult.  The status is set
to READY up front; when the resource has no type yet the move is attempted
and its final path stored, but a raised move is caught and only logged, so
execution continues either way and the requested type is adopted.  The
function is total: no exception propagates to the caller. -/
def handle_valid_resource (resource : ResourceRec)
    (moveResult : PyResult String) (requested_resource_type : String) : ResourceRec :=
  let r1 : ResourceRec := { resource with status := Resource.READY }
  let r2 : ResourceRec :=
    if r1.resource_type.isNone then
      match moveResult with
      | PyResult.ret final_path => { r1 with path := final_path }
      | PyResult.raised _ => r1
    else r1
  { r2 with resource_type := some requested_resource_type }

/-- The slice of a Resource database row that copy_resource_to_workspace
manipulates: identity, workspace association, visibility, and the content
fields (name and storage path) that the copy must preserve. -/
structure ResRecord where
  pk : Nat
  workspace : Option Nat
  is_public : Bool
  name : String
  path : String
deriving DecidableEq

/-- A ResourceMetadata database row: identity, the foreign key to its
Resource, and its content (the serialized observation and feature sets). -/
structure MetaRecord where
  pk : Nat
  resource : Nat
  content : String
deriving DecidableEq

/-- The two database tables copy_resource_to_workspace touches. -/
structure Db where
  resources : List ResRecord
  metadata : List MetaRecord
deriving DecidableEq

/-- Saving a record whose primary key was reset to None makes the database
assign a fresh key: modelled as one more than the largest key in use. -/
def freshPk (pks : List Nat) : Nat := pks.foldr max 0 + 1

/-- copy_resource_to_workspace from resource_utilities.py.  The metadata
queryset is filtered on the original primary key (Django resolves the
instance to its key when the filter is built, before the key is reset).
The resource row is duplicated with a fresh key, the workspace set and
is_public forced to false.  The metadata row is duplicated, pointing at the
new resource, only when exactly one metadata row exists; zero or multiple
rows are merely logged.  Returns the new resource and the updated tables. -/
def copy_resource_to_workspace (db : Db) (unattached_resource : ResRecord)
    (workspace : Nat) : ResRecord × Db :=
  let metadata_queryset :=
    db.metadata.filter (fun m => m.resource == unattached_resource.pk)
  let r : ResRecord :=
    { unattached_resource with
        pk := freshPk (db.resources.map ResRecord.pk)
        workspace := some workspace
        is_public := false }
  let db1 : Db := { db with resources := db.resources ++ [r] }
  match metadata_queryset with
  | [m] =>
    let newMeta : MetaRecord :=
      { m with
          pk := freshPk (db1.metadata.map MetaRecord.pk)
          resource := r.pk }
    (r, { db1 with metadata := db1.metadata ++ [newMeta] })
  | _ => (r, db1)

/-- Decimal digit characters of a natural number, most significant first,
with explicit fuel (n + 1 is always enough fuel for n).  This renders
numbers exactly as the percent-d formatting in basic_utils does. -/
def decReprAux : Nat → Nat → List Char
  | 0, _ => []
  | fuel + 1, n =>
    if n < 10 then [Nat.digitChar n]
    else decReprAux fuel (n / 10) ++ [Nat.digitChar (n % 10)]

/-- Decimal representation of a natural number as a character list. -/
def decRepr (n : Nat) : List Char := decReprAux (n + 1) n

/-- os.path.basename on character lists: the suffix after the last slash
(the whole input when no slash occurs). -/
def basenameChars (l : List Char) : List Char :=
  (l.reverse.takeWhile (fun c => c != '/')).reverse

/-- os.path.dirname on character lists: the part before the last slash, the
slash excluded (empty when no slash occurs). -/
def dirnameChars (l : List Char) : List Char :=
  ((l.reverse.dropWhile (fun c => c != '/')).drop 1).reverse

/-- os.path.basename on strings. -/
def pathBasename (p : String) : String := String.mk (basenameChars p.data)

/-- os.path.dirname on strings. -/
def pathDirname (p : String) : String := String.mk (dirnameChars p.data)

/-- One pass of the collision loop body in move_resource: the basename of
the current destination gets the counter value prepended, and dirname and
new basename are rejoined with a slash. -/
def renameDest (dest : String) (i : Nat) : String :=
  pathDirname dest ++ "/" ++ (String.mk (decRepr i) ++ pathBasename dest)

/-- The largest length among a list of strings (0 for the empty list). -/
def maxStringLength (fs : List String) : Nat :=
  (fs.map String.length).foldr max 0

/-- The while loop of move_resource: as long as the destination names an
existing file, prepend the counter to the basename and retry with the
counter incremented.  The loop terminates because each rename grows the
destination strictly, eventually exceeding every existing path length. -/
def collide (fs : List String) (dest : String) (i : Nat) : String :=
  if h : dest ∈ fs then collide fs (renameDest dest i) (i + 1) else dest
termination_by maxStringLength fs + 1 - dest.length
decreasing_by
  have hmem : dest.length ≤ maxStringLength fs := by
    clear * - h
    induction fs with
    | nil => cases h
    | cons a as ih =>
      have hfold : maxStringLength (a :: as) = max a.length (maxStringLength as) := rfl
      rcases List.mem_cons.mp h with h1 | h1
      · rw [h1, hfold]; exact le_max_left _ _
      · rw [hfold]; exact le_trans (ih h1) (le_max_right _ _)
  have hgrow : dest.length < (renameDest dest i).length := by
    clear * -
    have hq : ∀ l : List Char,
        (l.reverse.takeWhile (fun c => c != '/')).length
          + (l.reverse.dropWhile (fun c => c != '/')).length = l.length := by
      intro l
      have h2 := congrArg List.length
        (List.takeWhile_append_dropWhile (p := fun c => c != '/') (l := l.reverse))
      rw [List.length_append, List.length_reverse] at h2
      exact h2
    have hdec : 1 ≤ (decRepr i).length := by
      unfold decRepr decReprAux
      split
      · simp
      · simp
    have hmk : ∀ l : List Char, (String.mk l).length = l.length := fun _ => rfl
    have hlen : (renameDest dest i).length
        = (pathDirname dest).length + 1
          + ((decRepr i).length + (pathBasename dest).length) := by
      unfold renameDest
      rw [String.length_append, String.length_append, String.length_append]
      rfl
    have hbase : (pathBasename dest).length
        = (dest.data.reverse.takeWhile (fun c => c != '/')).length := by
      unfold pathBasename basenameChars
      rw [hmk, List.length_reverse]
    have hdir : (pathDirname dest).length
        = (dest.data.reverse.dropWhile (fun c => c != '/')).length - 1 := by
      unfold pathDirname dirnameChars
      rw [hmk, List.length_reverse, List.length_drop]
    have hdest : dest.length = dest.data.length := rfl
    have hsum := hq dest.data
    omega
  have hfin : maxStringLength fs + 1 - (renameDest dest i).length
      < maxStringLength fs + 1 - dest.length := by omega
  exact hfin

/-- move_resource from basic_utils.py, over a file system modelled as the
list of existing paths.  A missing source raises FileNotFoundError; then
the collision loop finds a free destination and os.rename succeeds (the
loop postcondition rules the FileExistsError branch out), returning the
final destination together with the updated file system. -/
def move_resource (fs : List String) (source dest : String) :
    PyResult (String × List String) :=
  if source ∈ fs then
    let d := collide fs dest 0
    PyResult.ret (d, (fs.erase source).concat d)
  else
    PyResult.raised ("No file exists at " ++ source)

/-- A label is a plain decimal numeral: nonempty and consisting of digits
only.  This is the literal reading of a row label being a number, as in the
spec examples "0", "1", "2"; the source check reMatchDigits is strictly
weaker, since it only looks at a digit prefix. -/
def isDecimalNumeral (s : String) : Bool :=
  match s.data with
  | [] => false
  | c :: cs => c.isDigit && cs.all Char.isDigit

/-- Example table for the IntegerMatrix relaxation: two float64 columns
whose non-missing values all have the textual form digits-dot-zero, so both
should be tolerated by the secondary check. -/
def tableTwoFloatCols : PTable :=
  { rowNames := ["r1", "r2", "r3", "r4"]
    columns :=
      [ { name := "A", dtype := "float64"
          values := [some "1.0", some "2.0", none, some "4.0"] }
      , { name := "B", dtype := "float64"
          values := [some "5.0", some "6.0", some "7.0", some "8.0"] } ] }

/-- Example table: a single float64 column holding 1, 2, NaN, 4 in textual
floating-point form, the tolerated case named by the spec. -/
def tableNaNFloatCol : PTable :=
  { rowNames := ["r1", "r2", "r3", "r4"]
    columns :=
      [ { name := "A", dtype := "float64"
          values := [some "1.0", some "2.0", none, some "4.0"] } ] }

/-- Example table: a single float64 column holding 1.5, 2, 3, which must be
rejected by IntegerMatrix. -/
def tableHalfCol : PTable :=
  { rowNames := ["r1", "r2", "r3"]
    columns :=
      [ { name := "C", dtype := "float64"
          values := [some "1.5", some "2.0", some "3.0"] } ] }

/-- Example table with three rows and zero data columns: pandas shape
(3, 0), so exactly one dimension is zero. -/
def tableNoDataCols : PTable :=
  { rowNames := ["gene1", "gene2", "gene3"], columns := [] }

/-- Example table whose shape is (0, 0). -/
def tableEmpty : PTable := { rowNames := [], columns := [] }

/-- Example table whose single row label "1a" is not a number but begins
with a digit. -/
def tableDigitPrefixRow : PTable :=
  { rowNames := ["1a"]
    columns := [ { name := "x", dtype := "object", values := [some "foo"] } ] }

/-- Example table whose row labels are the all-numeric set from the spec. -/
def tableNumericRows : PTable :=
  { rowNames := ["0", "1", "2"]
    columns :=
      [ { name := "x", dtype := "object"
          values := [some "foo", some "bar", some "baz"] } ] }

/-- Example resource prior to its first successful validation: no type
adopted yet, file still at the upload path. -/
def resourceBeforeMove : ResourceRec :=
  { status := "validation pending", resource_type := none, path := "/uploads/f.tsv" }

/-- Example resource row whose storage path is empty. -/
def emptyPathResource : DbResource := { pk := 1, path := "" }

/-- Example database for the workspace copy: one unattached public resource
with exactly one metadata row. -/
def dbOneResource : Db :=
  { resources := [ { pk := 1, workspace := none, is_public := true
                     name := "expr.tsv", path := "/up/expr.tsv" } ]
    metadata := [ { pk := 1, resource := 1, content := "obs-set-v1" } ] }

/-- The resource row of dbOneResource. -/
def instOneResource : ResRecord :=
  { pk := 1, workspace := none, is_public := true
    name := "expr.tsv", path := "/up/expr.tsv" }

/-- The metadata row of dbOneResource. -/
def metaOneResource : MetaRecord := { pk := 1, resource := 1, content := "obs-set-v1" }

/-- Example file system for the move scenario: the destination
/data/u1/abc.txt is already occupied, the renamed destination is free. -/
def fsCollision : List String := ["/data/u1/abc.txt", "/tmp/upload"]

theorem validate_type_ok_eq (t : PTable) :
    TableResource.validate_type (ParseOutcome.ok t) =
      if t.rowNames.length = 0 ∧ t.columns.length = 0 then
        (false, some EMPTY_TABLE_ERROR)
      else if t.columns.length = 0 then
        (false, some TRIVIAL_TABLE_ERROR)
      else if TableResource.index_all_numbers (t.columns.map PColumn.name) then
        (false, some NUMBERED_COLUMN_NAMES_ERROR)
      else if TableResource.index_all_numbers t.rowNames then
        (false, some NUMBERED_ROW_NAMES_ERROR)
      else if hasDuplicates t.rowNames then
        (false, some NONUNIQUE_ROW_NAMES_ERROR)
      else
        (true, none) := rfl

theorem mem_maxStringLength {fs : List String} {s : String} (h : s ∈ fs) :
    s.length ≤ maxStringLength fs := by
  induction fs with
  | nil => cases h
  | cons a as ih =>
    have hfold : maxStringLength (a :: as) = max a.length (maxStringLength as) := rfl
    rcases List.mem_cons.mp h with h1 | h1
    · rw [h1, hfold]; exact le_max_left _ _
    · rw [hfold]; exact le_trans (ih h1) (le_max_right _ _)

theorem renameDest_length_lt (dest : String) (i : Nat) :
    dest.length < (renameDest dest i).length := by
  have hq : ∀ l : List Char,
      (l.reverse.takeWhile (fun c => c != '/')).length
        + (l.reverse.dropWhile (fun c => c != '/')).length = l.length := by
    intro l
    have h2 := congrArg List.length
      (List.takeWhile_append_dropWhile (p := fun c => c != '/') (l := l.reverse))
    rw [List.length_append, List.length_reverse] at h2
    exact h2
  have hdec : 1 ≤ (decRepr i).length := by
    unfold decRepr decReprAux
    split
    · simp
    · simp
  have hmk : ∀ l : List Char, (String.mk l).length = l.length := fun _ => rfl
  have hlen : (renameDest dest i).length
      = (pathDirname dest).length + 1
        + ((decRepr i).length + (pathBasename dest).length) := by
    unfold renameDest
    rw [String.length_append, String.length_append, String.length_append]
    rfl
  have hbase : (pathBasename dest).length
      = (dest.data.reverse.takeWhile (fun c => c != '/')).length := by
    unfold pathBasename basenameChars
    rw [hmk, List.length_reverse]
  have hdir : (pathDirname dest).length
      = (dest.data.reverse.dropWhile (fun c => c != '/')).length - 1 := by
    unfold pathDirname dirnameChars
    rw [hmk, List.length_reverse, List.length_drop]
  have hdest : dest.length = dest.data.length := rfl
  have hsum := hq dest.data
  omega

theorem collide_of_not_mem {fs : List String} {dest : String} (i : Nat) (h : dest ∉ fs) :
    collide fs dest i = dest := by
  rw [collide]; exact dif_neg h

theorem collide_of_mem {fs : List String} {dest : String} (i : Nat) (h : dest ∈ fs) :
    collide fs dest i = collide fs (renameDest dest i) (i + 1) := by
  rw [collide]; exact dif_pos h

theorem collide_not_mem_aux (fs : List String) :
    ∀ (n : Nat) (dest : String) (i : Nat),
      maxStringLength fs + 1 - dest.length ≤ n → collide fs dest i ∉ fs := by
  intro n
  induction n with
  | zero =>
    intro dest i hle
    have hfree : dest ∉ fs := by
      intro hmem
      have h1 : dest.length ≤ maxStringLength fs := mem_maxStringLength hmem
      omega
    rw [collide_of_not_mem i hfree]
    exact hfree
  | succ n ih =>
    intro dest i hle
    by_cases hmem : dest ∈ fs
    · rw [collide_of_mem i hmem]
      apply ih
      have h1 : dest.length ≤ maxStringLength fs := mem_maxStringLength hmem
      have h2 : dest.length < (renameDest dest i).length := renameDest_length_lt dest i
      omega
    · rw [collide_of_not_mem i hmem]; exact hmem

theorem collide_result_free (fs : List String) (dest : String) (i : Nat) :
    collide fs dest i ∉ fs :=
  collide_not_mem_aux fs (maxStringLength fs + 1 - dest.length) dest i le_rfl

theorem le_foldr_max (pks : List Nat) : ∀ x ∈ pks, x ≤ pks.foldr max 0 := by
  intro x hx
  induction pks with
  | nil => cases hx
  | cons a as ih =>
    rcases List.mem_cons.mp hx with h | h
    · rw [h]; exact le_max_left _ _
    · exact le_trans (ih h) (le_max_right _ _)

theorem freshPk_not_mem (pks : List Nat) : freshPk pks ∉ pks := by
  intro hmem
  have h2 := le_foldr_max pks (freshPk pks) hmem
  unfold freshPk at h2
  omega

/-- C1: evaluating handle_valid_resource on a typeless resource whose move
raises shows the divergence from the claim: the call returns normally (the
exception is swallowed), the status has been set to READY, the requested
resource type has been adopted, and only the path is left unchanged. -/
theorem claim_C1_move_failure_divergence :
    handle_valid_resource resourceBeforeMove (PyResult.raised "Permission denied") "I_MTX"
      = { status := Resource.READY, resource_type := some "I_MTX"
          path := "/uploads/f.tsv" } := by
  rfl

/-- C2: evaluating IntegerMatrix.validate_type shows the divergence from the
claim: in tableTwoFloatCols both float columns pass the digits-dot-zero
relaxation, yet the validator rejects the table naming column B, because the
in-place pop during iteration skips B right after accepting A.  The two
single-column scenarios named by the claim do hold: the NaN-forced float
column is accepted and the column containing 1.5 is rejected. -/
theorem claim_C2_relaxation_divergence :
    IntegerMatrix.relaxAccepts tableTwoFloatCols "A" = true ∧
    IntegerMatrix.relaxAccepts tableTwoFloatCols "B" = true ∧
    IntegerMatrix.validate_type (ParseOutcome.ok tableTwoFloatCols)
      = (false, some (NON_INTEGER_ERROR "B (column 2)")) ∧
    IntegerMatrix.validate_type (ParseOutcome.ok tableNaNFloatCol) = (true, none) ∧
    IntegerMatrix.validate_type (ParseOutcome.ok tableHalfCol)
      = (false, some (NON_INTEGER_ERROR "C (column 1)")) := by
  refine ⟨rfl, rfl, ?_, ?_, ?_⟩ <;> decide

/-- C4 counterexample: a parsed table with three rows and zero data columns
has one dimension equal to zero, yet validate_type returns the TrivialTable
message, not the EmptyTable message. -/
theorem claim_C4_counterexample :
    TableResource.validate_type (ParseOutcome.ok tableNoDataCols)
      = (false, some TRIVIAL_TABLE_ERROR) ∧
    TRIVIAL_TABLE_ERROR ≠ EMPTY_TABLE_ERROR := by
  refine ⟨by decide, by decide⟩

/-- C4 (amended): the EmptyTable message is produced exactly when both
dimensions are zero; a table with rows but no data columns fails with the
TrivialTable message instead, and a table with columns but no rows also
fails, with some message other than EmptyTable. -/
theorem claim_C4_empty_table_amended :
    (∀ t : PTable, t.rowNames.length = 0 → t.columns.length = 0 →
      TableResource.validate_type (ParseOutcome.ok t) = (false, some EMPTY_TABLE_ERROR)) ∧
    (∀ t : PTable, t.rowNames.length ≠ 0 → t.columns.length = 0 →
      TableResource.validate_type (ParseOutcome.ok t) = (false, some TRIVIAL_TABLE_ERROR)) ∧
    (∀ t : PTable, t.rowNames.length = 0 → t.columns.length ≠ 0 →
      (TableResource.validate_type (ParseOutcome.ok t)).1 = false ∧
      (TableResource.validate_type (ParseOutcome.ok t)).2 ≠ some EMPTY_TABLE_ERROR) := by
  refine ⟨?_, ?_, ?_⟩
  · intro t h1 h2
    rw [validate_type_ok_eq, if_pos ⟨h1, h2⟩]
  · intro t h1 h2
    rw [validate_type_ok_eq, if_neg (fun hc => h1 hc.1), if_pos h2]
  · intro t h1 h2
    have hrows : TableResource.index_all_numbers t.rowNames = true := by
      rw [List.length_eq_zero.mp h1]
      rfl
    rw [validate_type_ok_eq, if_neg (fun hc => h2 hc.2), if_neg h2]
    by_cases hcols : TableResource.index_all_numbers (t.columns.map PColumn.name) = true
    · rw [if_pos hcols]
      exact ⟨rfl, by intro h; exact absurd (Option.some_injective _ h) (by decide)⟩
    · rw [if_neg hcols, if_pos hrows]
      exact ⟨rfl, by intro h; exact absurd (Option.some_injective _ h) (by decide)⟩

/-- C4 witness: the amended empty-table statement applied to the (0, 0)
table. -/
theorem claim_C4_witness :
    TableResource.validate_type (ParseOutcome.ok tableEmpty)
      = (false, some EMPTY_TABLE_ERROR) :=
  claim_C4_empty_table_amended.1 tableEmpty rfl rfl

/-- C9 counterexample: the row label "1a" is not a number, yet validate_type
returns the NumberedRows error for a table whose only row label it is,
because the source check is an unanchored digit-prefix regex match. -/
theorem claim_C9_counterexample :
    isDecimalNumeral "1a" = false ∧
    TableResource.validate_type (ParseOutcome.ok tableDigitPrefixRow)
      = (false, some NUMBERED_ROW_NAMES_ERROR) := by
  exact ⟨by decide, by decide⟩

/-- C9 (amended): the NumberedRows error is returned exactly when the table
passes the emptiness, triviality and column-name checks and every row label
begins with a decimal digit — the criterion actually applied by
index_all_numbers, under which labels such as "1a" also count as
numbers. -/
theorem claim_C9_numbered_rows_amended (t : PTable) :
    TableResource.validate_type (ParseOutcome.ok t)
        = (false, some NUMBERED_ROW_NAMES_ERROR)
      ↔ (¬ (t.rowNames.length = 0 ∧ t.columns.length = 0)
         ∧ t.columns.length ≠ 0
         ∧ TableResource.index_all_numbers (t.columns.map PColumn.name) = false
         ∧ TableResource.index_all_numbers t.rowNames = true) := by
  rw [validate_type_ok_eq]
  constructor
  · intro h
    split_ifs at h with hc1 hc2 hc3 hc4 hc5
    · exact absurd (Option.some_injective _ (congrArg Prod.snd h)) (by decide)
    · exact absurd (Option.some_injective _ (congrArg Prod.snd h)) (by decide)
    · exact absurd (Option.some_injective _ (congrArg Prod.snd h)) (by decide)
    · exact ⟨hc1, hc2, by simpa using hc3, hc4⟩
    · exact absurd (Option.some_injective _ (congrArg Prod.snd h)) (by decide)
    · exact absurd (congrArg Prod.fst h) (by decide)
  · rintro ⟨h1, h2, h3, h4⟩
    rw [if_neg h1, if_neg h2, if_neg (by simp [h3]), if_pos h4]

/-- C9 witness: the amended characterization applied to the spec's
all-numeric row label set. -/
theorem claim_C9_witness :
    TableResource.validate_type (ParseOutcome.ok tableNumericRows)
      = (false, some NUMBERED_ROW_NAMES_ERROR) :=
  (claim_C9_numbered_rows_amended tableNumericRows).mpr (by decide)

/-- C10: with an empty storage path, check_for_shared_resource_file returns
the Python None for every database state, so in particular it consults no
Resource rows and neither returns a boolean nor raises. -/
theorem claim_C10_empty_path_returns_none (resource : DbResource)
    (db : List DbResource) (h : resource.path = "") :
    check_for_shared_resource_file resource db = PyResult.ret none := by
  unfold check_for_shared_resource_file
  rw [h]
  rfl

/-- C10 witness: the empty-path behavior at a concrete resource and
database. -/
theorem claim_C10_witness :
    check_for_shared_resource_file emptyPathResource [ { pk := 9, path := "/q" } ]
      = PyResult.ret none :=
  claim_C10_empty_path_returns_none emptyPathResource [ { pk := 9, path := "/q" } ] rfl

/-- C3 counterexample: a resource with an empty storage path whose path is
referenced by exactly one Resource row (itself); the function returns the
Python None rather than False. -/
theorem claim_C3_counterexample :
    ([emptyPathResource].filter (fun r => r.path == emptyPathResource.path)
        = [emptyPathResource]) ∧
    check_for_shared_resource_file emptyPathResource [emptyPathResource]
      ≠ PyResult.ret (some false) := by
  exact ⟨by decide, by decide⟩

/-- C3 (amended): for every resource with a nonempty storage path, the
shared-file check returns False when exactly one Resource row (itself)
references the path, True when two or more do, and raises when none do. -/
theorem claim_C3_shared_file_amended (resource : DbResource) (db : List DbResource)
    (hpath : resource.path ≠ "") :
    ((db.filter (fun r => r.path == resource.path)).length = 0 →
        check_for_shared_resource_file resource db
          = PyResult.raised "No Resource found") ∧
    (∀ r, db.filter (fun x => x.path == resource.path) = [r] → r.pk = resource.pk →
        check_for_shared_resource_file resource db = PyResult.ret (some false)) ∧
    (2 ≤ (db.filter (fun r => r.path == resource.path)).length →
        check_for_shared_resource_file resource db = PyResult.ret (some true)) := by
  have hlen : 0 < resource.path.length := by
    apply Nat.pos_of_ne_zero
    intro h0
    apply hpath
    have hd : resource.path.data = [] := List.length_eq_zero.mp h0
    calc resource.path = String.mk resource.path.data := rfl
      _ = String.mk [] := by rw [hd]
      _ = "" := rfl
  refine ⟨?_, ?_, ?_⟩
  · intro h0
    have hnil : db.filter (fun r => r.path == resource.path) = [] :=
      List.length_eq_zero.mp h0
    simp only [check_for_shared_resource_file]
    rw [if_pos hlen, hnil]
    rfl
  · intro r hr hpk
    simp only [check_for_shared_resource_file]
    rw [if_pos hlen, hr]
    simp [List.headI, hpk]
  · intro h2
    simp only [check_for_shared_resource_file]
    rw [if_pos hlen, if_neg (by omega), if_neg (by omega)]

/-- C3 witness: the amended statement applied to a two-row database in which
exactly one row carries the path of the inspected resource. -/
theorem claim_C3_witness :
    check_for_shared_resource_file { pk := 5, path := "/d/f" }
        [ { pk := 5, path := "/d/f" }, { pk := 7, path := "/x" } ]
      = PyResult.ret (some false) :=
  (claim_C3_shared_file_amended { pk := 5, path := "/d/f" }
      [ { pk := 5, path := "/d/f" }, { pk := 7, path := "/x" } ]
      (by decide)).2.1 { pk := 5, path := "/d/f" } (by decide) rfl

/-- C5: the five structural rules of TableResource.validate_type fire in the
fixed source order — emptiness, triviality, numbered column names, numbered
row names, duplicate row names — each returning its own error as soon as it
fails with no later rule consulted, and each variant validator first runs
its parent, propagating a parent failure unchanged and adding its own
checks only on parent success. -/
theorem claim_C5_order_and_dispatch :
    (∀ t : PTable,
      (t.rowNames.length = 0 ∧ t.columns.length = 0 →
        TableResource.validate_type (ParseOutcome.ok t)
          = (false, some EMPTY_TABLE_ERROR)) ∧
      (¬ (t.rowNames.length = 0 ∧ t.columns.length = 0) → t.columns.length = 0 →
        TableResource.validate_type (ParseOutcome.ok t)
          = (false, some TRIVIAL_TABLE_ERROR)) ∧
      (t.columns.length ≠ 0 →
        TableResource.index_all_numbers (t.columns.map PColumn.name) = true →
        TableResource.validate_type (ParseOutcome.ok t)
          = (false, some NUMBERED_COLUMN_NAMES_ERROR)) ∧
      (t.columns.length ≠ 0 →
        TableResource.index_all_numbers (t.columns.map PColumn.name) = false →
        TableResource.index_all_numbers t.rowNames = true →
        TableResource.validate_type (ParseOutcome.ok t)
          = (false, some NUMBERED_ROW_NAMES_ERROR)) ∧
      (t.columns.length ≠ 0 →
        TableResource.index_all_numbers (t.columns.map PColumn.name) = false →
        TableResource.index_all_numbers t.rowNames = false →
        hasDuplicates t.rowNames = true →
        TableResource.validate_type (ParseOutcome.ok t)
          = (false, some NONUNIQUE_ROW_NAMES_ERROR)) ∧
      (t.columns.length ≠ 0 →
        TableResource.index_all_numbers (t.columns.map PColumn.name) = false →
        TableResource.index_all_numbers t.rowNames = false →
        hasDuplicates t.rowNames = false →
        TableResource.validate_type (ParseOutcome.ok t) = (true, none)))
    ∧ (∀ p : ParseOutcome, (TableResource.validate_type p).1 = false →
        Matrix.validate_type p = TableResource.validate_type p)
    ∧ (∀ t : PTable, (TableResource.validate_type (ParseOutcome.ok t)).1 = true →
        Matrix.validate_type (ParseOutcome.ok t)
          = (if 0 < (Matrix.check_column_types t dtypeMatchesNumeric).length then
              (false, some (NON_NUMERIC_ERROR
                (joinProblemColumns (Matrix.check_column_types t dtypeMatchesNumeric))))
            else (true, none)))
    ∧ (∀ p : ParseOutcome, (Matrix.validate_type p).1 = false →
        IntegerMatrix.validate_type p = Matrix.validate_type p)
    ∧ (∀ p : ParseOutcome, (TableResource.validate_type p).1 = false →
        ElementTable.validate_type p = TableResource.validate_type p)
    ∧ (∀ p : ParseOutcome, (ElementTable.validate_type p).1 = false →
        AnnotationTable.validate_type p = ElementTable.validate_type p)
    ∧ (∀ p : ParseOutcome, (TableResource.validate_type p).1 = false →
        AnnotationTable.validate_type p = TableResource.validate_type p) := by
  have hpropM : ∀ p : ParseOutcome, (TableResource.validate_type p).1 = false →
      Matrix.validate_type p = TableResource.validate_type p := by
    intro p h
    have hr : TableResource.validate_type p
        = (false, (TableResource.validate_type p).2) := by rw [← h]
    simp only [Matrix.validate_type]
    rw [if_pos h]
    exact hr.symm
  have hpropE : ∀ p : ParseOutcome, (TableResource.validate_type p).1 = false →
      ElementTable.validate_type p = TableResource.validate_type p := by
    intro p h
    have hr : TableResource.validate_type p
        = (false, (TableResource.validate_type p).2) := by rw [← h]
    simp only [ElementTable.validate_type]
    rw [if_pos h]
    exact hr.symm
  have hpropA : ∀ p : ParseOutcome, (ElementTable.validate_type p).1 = false →
      AnnotationTable.validate_type p = ElementTable.validate_type p := by
    intro p h
    have hr : ElementTable.validate_type p
        = (false, (ElementTable.validate_type p).2) := by rw [← h]
    simp only [AnnotationTable.validate_type]
    rw [if_pos h]
    exact hr.symm
  refine ⟨?_, hpropM, ?_, ?_, hpropE, hpropA, ?_⟩
  · intro t
    refine ⟨?_, ?_, ?_, ?_, ?_, ?_⟩
    · intro h1
      rw [validate_type_ok_eq, if_pos h1]
    · intro h1 h2
      rw [validate_type_ok_eq, if_neg h1, if_pos h2]
    · intro h2 h3
      rw [validate_type_ok_eq, if_neg (fun hc => h2 hc.2), if_neg h2, if_pos h3]
    · intro h2 h3 h4
      rw [validate_type_ok_eq, if_neg (fun hc => h2 hc.2), if_neg h2,
        if_neg (by simp [h3]), if_pos h4]
    · intro h2 h3 h4 h5
      rw [validate_type_ok_eq, if_neg (fun hc => h2 hc.2), if_neg h2,
        if_neg (by simp [h3]), if_neg (by simp [h4]), if_pos h5]
    · intro h2 h3 h4 h5
      rw [validate_type_ok_eq, if_neg (fun hc => h2 hc.2), if_neg h2,
        if_neg (by simp [h3]), if_neg (by simp [h4]), if_neg (by simp [h5])]
  · intro t h
    simp only [Matrix.validate_type]
    rw [if_neg (by simp [h])]
  · intro p h
    have hr : Matrix.validate_type p = (false, (Matrix.validate_type p).2) := by
      rw [← h]
    simp only [IntegerMatrix.validate_type]
    rw [if_pos h]
    exact hr.symm
  · intro p h
    have he : ElementTable.validate_type p = TableResource.validate_type p := hpropE p h
    have he1 : (ElementTable.validate_type p).1 = false := by rw [he]; exact h
    rw [hpropA p he1, he]

/-- C5 witness: a parse failure propagates unchanged through the Matrix
validator. -/
theorem claim_C5_witness :
    Matrix.validate_type ParseOutcome.parseError
      = TableResource.validate_type ParseOutcome.parseError :=
  claim_C5_order_and_dispatch.2.1 ParseOutcome.parseError rfl

/-- C6: get_preview is total over every read outcome — on a successful parse
it returns the dict of column labels, the first five row labels and the
first five rows of values, and on every failure outcome it returns a dict
holding only an error message. -/
theorem claim_C6_preview_contract (o : ReadOutcome) :
    (∀ t : PTable, o = ReadOutcome.ok t →
      TableResource.get_preview o
        = PreviewResult.preview (t.columns.map PColumn.name) (t.rowNames.take 5)
            (PTable.headValues t)) ∧
    ((∀ t : PTable, o ≠ ReadOutcome.ok t) →
      ∃ msg, TableResource.get_preview o = PreviewResult.error msg) := by
  constructor
  · intro t ht
    subst ht
    rfl
  · intro h
    cases o with
    | ok t => exact absurd rfl (h t)
    | parserNotFound => exact ⟨_, rfl⟩
    | parseError => exact ⟨_, rfl⟩
    | otherFailure => exact ⟨_, rfl⟩

/-- C6 witness: the preview contract applied to a failure outcome and to a
concrete three-row table. -/
theorem claim_C6_witness :
    (∃ msg, TableResource.get_preview ReadOutcome.parseError
        = PreviewResult.error msg) ∧
    TableResource.get_preview (ReadOutcome.ok tableNumericRows)
      = PreviewResult.preview ["x"] ["0", "1", "2"]
          [[some "foo"], [some "bar"], [some "baz"]] := by
  constructor
  · exact (claim_C6_preview_contract ReadOutcome.parseError).2
      (fun t h => ReadOutcome.noConfusion h)
  · have h := (claim_C6_preview_contract (ReadOutcome.ok tableNumericRows)).1
      tableNumericRows rfl
    rw [h]
    decide

/-- C7: copying a resource that has exactly one metadata row to a workspace
yields a resource under a fresh primary key with the workspace set and
is_public forced off, carrying the same content fields, and appends a
metadata row under a fresh primary key that points at the new resource and
carries the original metadata content; the original rows are left in
place. -/
theorem claim_C7_copy_to_workspace (db : Db) (inst : ResRecord) (w : Nat)
    (m : MetaRecord)
    (hm : db.metadata.filter (fun x => x.resource == inst.pk) = [m]) :
    (copy_resource_to_workspace db inst w).1.pk ∉ db.resources.map ResRecord.pk ∧
    (copy_resource_to_workspace db inst w).1.workspace = some w ∧
    (copy_resource_to_workspace db inst w).1.is_public = false ∧
    (copy_resource_to_workspace db inst w).1.name = inst.name ∧
    (copy_resource_to_workspace db inst w).1.path = inst.path ∧
    (copy_resource_to_workspace db inst w).2.resources
      = db.resources ++ [(copy_resource_to_workspace db inst w).1] ∧
    (copy_resource_to_workspace db inst w).2.metadata
      = db.metadata ++
        [ { pk := freshPk (db.metadata.map MetaRecord.pk)
            resource := (copy_resource_to_workspace db inst w).1.pk
            content := m.content } ] ∧
    freshPk (db.metadata.map MetaRecord.pk) ∉ db.metadata.map MetaRecord.pk ∧
    m ∈ db.metadata := by
  have hcopy : copy_resource_to_workspace db inst w
      = ({ inst with
             pk := freshPk (db.resources.map ResRecord.pk),
             workspace := some w,
             is_public := false },
         { resources := db.resources ++
             [{ inst with
                  pk := freshPk (db.resources.map ResRecord.pk),
                  workspace := some w,
                  is_public := false }],
           metadata := db.metadata ++
             [ { pk := freshPk (db.metadata.map MetaRecord.pk),
                 resource := freshPk (db.resources.map ResRecord.pk),
                 content := m.content } ] }) := by
    simp only [copy_resource_to_workspace]
    rw [hm]
  rw [hcopy]
  refine ⟨freshPk_not_mem _, rfl, rfl, rfl, rfl, rfl, rfl, freshPk_not_mem _, ?_⟩
  have hmem : m ∈ db.metadata.filter (fun x => x.resource == inst.pk) := by
    rw [hm]; exact List.mem_singleton.mpr rfl
  exact List.mem_of_mem_filter hmem

/-- C7 witness: the workspace copy applied to a one-resource database with a
single metadata row. -/
theorem claim_C7_witness :
    (copy_resource_to_workspace dbOneResource instOneResource 9).1.workspace = some 9 ∧
    (copy_resource_to_workspace dbOneResource instOneResource 9).1.is_public = false ∧
    (copy_resource_to_workspace dbOneResource instOneResource 9).2.metadata
      = dbOneResource.metadata ++
        [ { pk := freshPk (dbOneResource.metadata.map MetaRecord.pk)
            resource := (copy_resource_to_workspace dbOneResource instOneResource 9).1.pk
            content := metaOneResource.content } ] := by
  have h := claim_C7_copy_to_workspace dbOneResource instOneResource 9
    metaOneResource (by decide)
  exact ⟨h.2.1, h.2.2.1, h.2.2.2.2.2.2.1⟩

/-- C8: when the source exists, move_resource returns the first free name of
the renaming sequence together with the updated file system — in particular
the returned destination never collides with an existing path — and when the
requested destination is taken while its 0-prefixed renaming is free, the
move lands exactly on the renaming that prepends "0" to the basename. -/
theorem claim_C8_collision_rename (fs : List String) (source dest : String)
    (hsource : source ∈ fs) (hdest : dest ∈ fs)
    (hfree : renameDest dest 0 ∉ fs) :
    move_resource fs source dest
      = PyResult.ret (renameDest dest 0,
          (fs.erase source).concat (renameDest dest 0)) ∧
    renameDest dest 0 = pathDirname dest ++ "/" ++ ("0" ++ pathBasename dest) ∧
    (∀ (fs2 : List String) (s2 d2 : String), s2 ∈ fs2 →
      move_resource fs2 s2 d2
        = PyResult.ret (collide fs2 d2 0, (fs2.erase s2).concat (collide fs2 d2 0)) ∧
      collide fs2 d2 0 ∉ fs2) := by
  refine ⟨?_, rfl, ?_⟩
  · unfold move_resource
    rw [if_pos hsource]
    have hc : collide fs dest 0 = renameDest dest 0 := by
      rw [collide_of_mem 0 hdest, collide_of_not_mem 1 hfree]
    rw [hc]
  · intro fs2 s2 d2 hs2
    constructor
    · unfold move_resource
      rw [if_pos hs2]
    · exact collide_result_free fs2 d2 0

/-- C8 witness: the spec scenario — moving onto the occupied path
/data/u1/abc.txt succeeds by writing to /data/u1/0abc.txt. -/
theorem claim_C8_witness :
    move_resource fsCollision "/tmp/upload" "/data/u1/abc.txt"
      = PyResult.ret ("/data/u1/0abc.txt",
          ["/data/u1/abc.txt", "/data/u1/0abc.txt"]) := by
  have h := claim_C8_collision_rename fsCollision "/tmp/upload" "/data/u1/abc.txt"
    (by decide) (by decide) (by decide)
  have e : renameDest "/data/u1/abc.txt" 0 = "/data/u1/0abc.txt" := by decide
  rw [h.1, e]
  rfl
